import Mathlib

/-!
# QuickNote — verification of the notes-copilot client and core behavior

Shallow embedding of the Vue client under `web/src/` (note form, search bar,
note card, note-detail task toggle, API client) together with the note
ingestion / search core that the specification describes.  The backend server
code is not part of the repository snapshot, so those components are modelled
from the specification text; every such definition is marked
`Modelled from the spec:` in its doc comment.  All other definitions are
translated directly from the JavaScript / Vue sources.
-/

namespace QuickNote

/-! ## Whitespace trimming (JavaScript `String.prototype.trim`) -/

/-- Whitespace characters removed by JavaScript's `trim()`: ASCII whitespace,
no-break space and the BOM. -/
def isJsWhitespace (c : Char) : Bool :=
  c = ' ' || c = '\t' || c = '\n' || c = '\r' || c = '\x0B' || c = '\x0C' ||
    c = ' ' || c = '﻿'

/-- Leading- and trailing-whitespace removal on a character list. -/
def trimChars (l : List Char) : List Char :=
  ((l.dropWhile isJsWhitespace).reverse.dropWhile isJsWhitespace).reverse

/-- `s.trim()` as the client and the input normalizer use it. -/
def jsTrim (s : String) : String := String.mk (trimChars s.data)

/-! ## Client data shapes (JSON payloads consumed by the Vue components) -/

/-- A task as the client receives it from the API. -/
structure ClientTask where
  id : Nat
  text : String
  status : String
deriving DecidableEq

/-- A note as the client receives it from the API.  `similarity` is a JSON
number or `null`; `none` models `null`. -/
structure ClientNote where
  id : Nat
  title : String
  summary : String
  tags : List String
  createdAt : Int
  similarity : Option ℚ
  tasks : List ClientTask
deriving DecidableEq

/-! ## NoteForm.vue -/

/-- `NoteForm` template: the title input's `:disabled="isSubmitting"` binding. -/
def titleInputDisabled (isSubmitting : Bool) : Bool := isSubmitting

/-- `NoteForm` template: the body textarea's `:disabled="true"` binding — the
attribute is hard-coded to `true`, independent of the submission state. -/
def bodyInputDisabled (_isSubmitting : Bool) : Bool := true

/-- `NoteForm.isValid`: truthiness of `this.form.title.trim() && this.form.body.trim()`
(a string is truthy exactly when it is non-empty). -/
def isValid (title body : String) : Bool :=
  (jsTrim title != "") && (jsTrim body != "")

/-- `NoteForm.handleSubmit`: returns the `{title, body}` payload passed to
`api.createNote`, or `none` when the guard `if (!this.isValid || this.isSubmitting) return`
prevents a submission. -/
def handleSubmit (isSubmitting : Bool) (title body : String) :
    Option (String × String) :=
  if !(isValid title body) || isSubmitting then none
  else some (jsTrim title, jsTrim body)

/-! ## SearchBar (in TagChip.vue) and api.js -/

/-- `SearchBar.performSearch`: emits `this.searchQuery.trim() || null`. -/
def performSearch (searchQuery : String) : Option String :=
  let query := jsTrim searchQuery
  if query = "" then none else some query

/-- `api.listNotes`: the `search` query parameter is appended only under
`if (search)`, i.e. when `search` is neither `null` nor the empty string. -/
def listNotesSearchParam (search : Option String) : Option String :=
  match search with
  | none => none
  | some s => if s = "" then none else some s

/-- The search parameter the client sends for a given raw search input:
`Home.handleSearch` forwards the `SearchBar` emission unchanged into
`api.listNotes`. -/
def sentSearchParam (input : String) : Option String :=
  listNotesSearchParam (performSearch input)

/-! ## NoteCard.vue -/

/-- `NoteCard` template: the similarity badge renders under
`v-if="note.similarity !== null"`. -/
def showsSimilarity (similarity : Option ℚ) : Bool :=
  match similarity with
  | none => false
  | some _ => true

/-- `NoteCard.viewNote`: `this.$emit('view-note', 1)` — the payload is the
literal `1`, the displayed note is ignored. -/
def viewNotePayload (_note : ClientNote) : Nat := 1

/-- `Home.viewNote(noteId)`: navigates to the `NoteDetail` route for `noteId`. -/
def homeNavigationTarget (noteId : Nat) : Nat := noteId

/-- The note id the detail page (and its `GetNote` call) targets after a
card's View Details click. -/
def detailRouteId (note : ClientNote) : Nat :=
  homeNavigationTarget (viewNotePayload note)

/-! ## NoteDetail task toggle (in api.js) -/

/-- `NoteDetail.toggleTask`: `task.status === 'done' ? 'open' : 'done'`. -/
def toggleStatus (status : String) : String :=
  if status = "done" then "open" else "done"

/-! ## api.checkForSensitive -/

/-- The browser action `checkForSensitive` can schedule. -/
structure OpenAction where
  delayMs : Nat
  url : String
  newTab : Bool
deriving DecidableEq

/-- The external URL `api.checkForSensitive` opens. -/
def sensitiveGuidelinesUrl : String := "https://www.youtube.com/watch?v=dQw4w9WgXcQ"

/-- JavaScript `toLowerCase()` on the tag strings (character-wise lowering). -/
def jsToLower (s : String) : String := String.mk (s.data.map Char.toLower)

/-- `api.checkForSensitive(tags)`: under `tags?.some(tag => tag.toLowerCase() === 'sensitive')`
it schedules `window.open(..., '_blank')` behind a 1000 ms `setTimeout`;
otherwise (including for `null`/`undefined` tags) it does nothing. -/
def checkForSensitive (tags : Option (List String)) : Option OpenAction :=
  match tags with
  | none => none
  | some l =>
    if l.any (fun tag => jsToLower tag == "sensitive") then
      some ⟨1000, sensitiveGuidelinesUrl, true⟩
    else none

/-! ## Spec-modelled backend core

The repository snapshot contains no backend sources, only the client and the
README describing the server.  The following definitions are therefore
modelled from the specification text. -/

/-- Modelled from the spec: the error taxonomy of `CreateNote`
(`ValidationError | EnrichmentError | EmbeddingError | StorageError`). -/
inductive CreateError
  | validation
  | enrichment
  | embedding
  | storage
deriving DecidableEq

/-- Modelled from the spec: the fixed maximum stored body length. -/
def maxBodyChars : Nat := 8000

/-- Modelled from the spec: character-count truncation of the body,
applied after trimming. -/
def truncateBody (s : String) : String := String.mk (s.data.take maxBodyChars)

/-- Modelled from the spec: the Input Normalizer (the backend is not under
`src/`): trims leading/trailing whitespace from title and body, fails with
`ValidationError` when either is empty after trimming, and truncates the body
to at most `maxBodyChars` characters. -/
def normalize (title body : String) : Except CreateError (String × String) :=
  if jsTrim title = "" then Except.error CreateError.validation
  else if jsTrim body = "" then Except.error CreateError.validation
  else Except.ok (jsTrim title, truncateBody (jsTrim body))

/-- Modelled from the spec: the Enrichment Client's structured output
`{summary, tags, tasks}`. -/
structure Enrichment where
  summary : String
  tags : List String
  tasks : List String
deriving DecidableEq

/-- Modelled from the spec: a persisted Task record. -/
structure Task where
  id : Nat
  noteId : Nat
  text : String
  status : String
deriving DecidableEq

/-- Modelled from the spec: a persisted Note record. -/
structure Note where
  id : Nat
  title : String
  body : String
  summary : String
  tags : List String
  embedding : List ℚ
  createdAt : Int
deriving DecidableEq

/-- Modelled from the spec: the persistence layer's visible state. -/
structure Store where
  notes : List Note
  tasks : List Task
deriving DecidableEq

/-- Modelled from the spec: the Tasks created alongside a Note from the
enrichment output, all with status `open`. -/
def mkTasks (firstTaskId noteId : Nat) (texts : List String) : List Task :=
  texts.enum.map (fun p => ⟨firstTaskId + p.1, noteId, p.2, "open"⟩)

/-- Modelled from the spec: the Ingestion Pipeline.  The outcomes of the two
model calls and of persistence are inputs (the pipeline treats them as
external collaborators): normalize → enrich → embed → persist.  On any
failure the store is returned unchanged and the failing stage's error kind
propagates; on success exactly one fully enriched Note and its Tasks are
appended. -/
def createNote (store : Store) (newId firstTaskId : Nat) (now : Int)
    (title body : String) (enrichResult : Except Unit Enrichment)
    (embedResult : Except Unit (List ℚ)) (persistOk : Bool) :
    Except CreateError Note × Store :=
  match normalize title body with
  | Except.error e => (Except.error e, store)
  | Except.ok (t, b) =>
    match enrichResult with
    | Except.error _ => (Except.error CreateError.enrichment, store)
    | Except.ok enr =>
      match embedResult with
      | Except.error _ => (Except.error CreateError.embedding, store)
      | Except.ok vec =>
        if persistOk then
          let note : Note := ⟨newId, t, b, enr.summary, enr.tags, vec, now⟩
          (Except.ok note,
            ⟨store.notes ++ [note],
              store.tasks ++ mkTasks firstTaskId newId enr.tasks⟩)
        else (Except.error CreateError.storage, store)

/-- Modelled from the spec: `UpdateTaskStatus` error kinds. -/
inductive UpdateError
  | notFound
  | validation
deriving DecidableEq

/-- Modelled from the spec: the task table, keyed by task identifier. -/
abbrev TaskMap := Nat → Option Task

/-- Modelled from the spec: `UpdateTaskStatus(taskId, status)` — rejects a
status outside `{open, done}`, fails with `NotFoundError` on an unknown
identifier, and otherwise stores and returns the task with the new status
(setting the current status again is a no-op). -/
def updateTaskStatus (tasks : TaskMap) (taskId : Nat) (status : String) :
    Except UpdateError (TaskMap × Task) :=
  if status = "open" ∨ status = "done" then
    match tasks taskId with
    | none => Except.error UpdateError.notFound
    | some t =>
      Except.ok (fun i => if i = taskId then some { t with status := status }
        else tasks i, { t with status := status })
  else Except.error UpdateError.validation

/-! ## Spec-modelled Similarity Ranker and Search Orchestrator -/

/-- Modelled from the spec: a scored search candidate — the note's identifier
and creation time together with its similarity score against the query. -/
structure ScoredNote where
  id : Nat
  createdAt : Int
  sim : ℚ
deriving DecidableEq

/-- Modelled from the spec: the ranking key — similarity descending, then
creation time descending (newest first), then identifier, lexicographically. -/
def rankKey (n : ScoredNote) : ℚ ×ₗ (ℤ ×ₗ ℕ) :=
  toLex (-n.sim, toLex (-n.createdAt, n.id))

/-- Comparison of two values along a key into a linear order. -/
def keyLE {α κ : Type} [LinearOrder κ] (key : α → κ) (a b : α) : Prop :=
  key a ≤ key b

instance keyLEDecidable {α κ : Type} [LinearOrder κ] (key : α → κ) :
    DecidableRel (keyLE key) :=
  fun a b => inferInstanceAs (Decidable (key a ≤ key b))

instance keyLETotal {α κ : Type} [LinearOrder κ] (key : α → κ) :
    IsTotal α (keyLE key) :=
  ⟨fun a b => le_total (key a) (key b)⟩

instance keyLETrans {α κ : Type} [LinearOrder κ] (key : α → κ) :
    IsTrans α (keyLE key) :=
  ⟨fun _ _ _ h1 h2 => le_trans h1 h2⟩

/-- Sorting a candidate list by a key. -/
def sortByKey {α κ : Type} [LinearOrder κ] (key : α → κ) (l : List α) :
    List α :=
  List.insertionSort (keyLE key) l

/-- Modelled from the spec: offset/limit pagination applied to the sorted
sequence. -/
def paginate {α : Type} (offset limit : Nat) (l : List α) : List α :=
  (l.drop offset).take limit

/-- Modelled from the spec: the Similarity Ranker's deterministic ordering of
the full candidate set. -/
def rankNotes (candidates : List ScoredNote) : List ScoredNote :=
  sortByKey rankKey candidates

/-- Modelled from the spec: a semantic search's result page. -/
def searchResults (candidates : List ScoredNote) (offset limit : Nat) :
    List ScoredNote :=
  paginate offset limit (rankNotes candidates)

/-- Modelled from the spec: reverse-chronological ordering key (creation time
descending, then identifier) for plain listings. -/
def chronoKey (n : Note) : ℤ ×ₗ ℕ := toLex (-n.createdAt, n.id)

/-- Modelled from the spec: the Search Orchestrator's plain listing — when no
search term is supplied, notes are ordered by creation time descending,
paginated identically, and `similarity` is omitted (`none`, i.e. null) for
every result. -/
def plainListing (notes : List Note) (tasksOf : Note → List ClientTask)
    (offset limit : Nat) : List ClientNote :=
  (paginate offset limit (sortByKey chronoKey notes)).map
    (fun n => ⟨n.id, n.title, n.summary, n.tags, n.createdAt, none, tasksOf n⟩)

/-! ## Concrete sample data used by witnesses -/

/-- A sample persisted note. -/
def sampleNote : Note := ⟨1, "t", "b", "s", ["x", "y", "z"], [1], 0⟩

/-- The client view of `sampleNote` in a plain listing. -/
def sampleListedNote : ClientNote := ⟨1, "t", "s", ["x", "y", "z"], 0, none, []⟩

/-- A sample open task. -/
def sampleTask : Task := ⟨1, 1, "call", "open"⟩

/-- A task table holding exactly `sampleTask`. -/
def sampleTaskMap : TaskMap := fun i => if i = 1 then some sampleTask else none

/-- A whitespace-padded body: 8001 spaces followed by a single letter. -/
def padBody : String := String.mk (List.replicate 8001 ' ' ++ ['a'])

/-- A body of 8001 letters (no surrounding whitespace). -/
def longBody : String := String.mk (List.replicate 8001 'a')

/-! ## Helper lemmas -/

/-- `dropWhile` leaves a run of non-matching characters alone. -/
theorem dropWhile_replicate_of_neg (p : Char → Bool) (c : Char)
    (h : p c = false) (n : Nat) :
    (List.replicate n c).dropWhile p = List.replicate n c := by
  cases n with
  | zero => rfl
  | succ m => simp [List.replicate_succ, List.dropWhile_cons, h]

/-- `dropWhile` consumes a leading run of matching characters. -/
theorem dropWhile_replicate_append (p : Char → Bool) (c : Char)
    (h : p c = true) (n : Nat) (l : List Char) :
    (List.replicate n c ++ l).dropWhile p = l.dropWhile p := by
  induction n with
  | zero => simp
  | succ m ih => simp [List.replicate_succ, List.dropWhile_cons, h, ih]

/-- A successful `updateTaskStatus` call, spelled out. -/
theorem updateTaskStatus_found (tasks : TaskMap) (taskId : Nat) (st : String)
    (t : Task) (hst : st = "open" ∨ st = "done")
    (hfind : tasks taskId = some t) :
    updateTaskStatus tasks taskId st =
      Except.ok (fun i => if i = taskId then some { t with status := st }
        else tasks i, { t with status := st }) := by
  unfold updateTaskStatus
  rw [if_pos hst, hfind]

/-- `sortByKey` sorts with respect to its key comparison. -/
theorem sorted_sortByKey {α κ : Type} [LinearOrder κ] (key : α → κ)
    (l : List α) : List.Sorted (keyLE key) (sortByKey key l) :=
  List.sorted_insertionSort (keyLE key) l

/-- Unfolding the ranker's key comparison into the claim's adjacent-pair
property. -/
theorem keyLE_rankKey_elim {a b : ScoredNote} (h : keyLE rankKey a b) :
    b.sim ≤ a.sim ∧ (a.sim = b.sim → b.createdAt ≤ a.createdAt ∧
      (a.createdAt = b.createdAt → a.id ≤ b.id)) := by
  unfold keyLE rankKey at h
  rw [Prod.Lex.le_iff] at h
  rcases h with h | ⟨h1, h2⟩
  · refine ⟨(neg_lt_neg_iff.mp h).le, fun he => absurd h ?_⟩
    rw [he]
    exact lt_irrefl _
  · have hsim : a.sim = b.sim := neg_inj.mp h1
    rw [Prod.Lex.le_iff] at h2
    refine ⟨le_of_eq hsim.symm, fun _ => ?_⟩
    rcases h2 with h2 | ⟨h3, h4⟩
    · refine ⟨(neg_lt_neg_iff.mp h2).le, fun hce => absurd h2 ?_⟩
      rw [hce]
      exact lt_irrefl _
    · exact ⟨le_of_eq (neg_inj.mp h3).symm, fun _ => h4⟩

/-! ## Theorems for the client-side claims -/

/-- C1: the claim states that outside a submission neither the title input nor
the body textarea is disabled.  The title input indeed follows the submission
state, but the body textarea's `disabled` binding is the constant `true`, so
the content input never accepts user input — the code contradicts the
documented behavior. -/
theorem c1_body_textarea_always_disabled :
    titleInputDisabled false = false ∧ bodyInputDisabled false = true ∧
      ∀ isSubmitting, bodyInputDisabled isSubmitting = true :=
  ⟨rfl, rfl, fun _ => rfl⟩

/-- C3: the client sends a `search` parameter exactly when the trimmed input is
non-empty, and then the parameter is exactly the trimmed value; a blank or
whitespace-only input produces no `search` parameter at all. -/
theorem c3_search_param_iff_trimmed_nonempty (input : String) :
    sentSearchParam input =
      if jsTrim input = "" then none else some (jsTrim input) := by
  by_cases h : jsTrim input = "" <;>
    simp [sentSearchParam, performSearch, listNotesSearchParam, h]

/-- C5: whenever `NoteForm.handleSubmit` actually performs a submission, the
payload's title and body are the user's entries trimmed of leading and
trailing whitespace, and both are non-empty — so the server-side
`ValidationError` for blank fields can never be triggered from this form. -/
theorem c5_submission_trimmed_and_nonblank (isSubmitting : Bool)
    (title body : String) (payload : String × String)
    (h : handleSubmit isSubmitting title body = some payload) :
    payload.1 = jsTrim title ∧ payload.2 = jsTrim body ∧
      payload.1 ≠ "" ∧ payload.2 ≠ "" := by
  cases payload with
  | mk p1 p2 =>
    by_cases h1 : jsTrim title = ""
    · simp [handleSubmit, isValid, h1] at h
    · by_cases h2 : jsTrim body = ""
      · simp [handleSubmit, isValid, h2] at h
      · cases isSubmitting with
        | true => simp [handleSubmit] at h
        | false =>
          simp [handleSubmit, isValid, h1, h2, Prod.mk.injEq] at h
          exact ⟨h.1.symm, h.2.symm, h.1 ▸ h1, h.2 ▸ h2⟩

/-- Witness for C5 at a concrete submission. -/
theorem c5_witness :
    (("a", "b") : String × String).1 = jsTrim " a " ∧
      (("a", "b") : String × String).2 = jsTrim " b " ∧
      (("a", "b") : String × String).1 ≠ "" ∧
      (("a", "b") : String × String).2 ≠ "" :=
  c5_submission_trimmed_and_nonblank false " a " " b " ("a", "b") (by decide)

/-- C9: clicking View Details on any note card emits the constant `1`,
independent of the displayed note, so the resulting detail navigation (and its
`GetNote` call) always targets note 1. -/
theorem c9_view_details_targets_note_one (note other : ClientNote) :
    viewNotePayload note = 1 ∧ detailRouteId note = 1 ∧
      viewNotePayload note = viewNotePayload other :=
  ⟨rfl, rfl, rfl⟩

/-- C10: `checkForSensitive` schedules opening the external YouTube URL in a
new tab after a 1000 ms delay exactly when the tags list contains an element
whose lowercase form is \"sensitive\"; for every other input, including absent
tags, it does nothing. -/
theorem c10_check_for_sensitive (tags : Option (List String)) :
    (checkForSensitive tags ≠ none ↔
        ∃ l, tags = some l ∧ ∃ t ∈ l, jsToLower t = "sensitive") ∧
      (checkForSensitive tags = none ∨
        checkForSensitive tags = some ⟨1000, sensitiveGuidelinesUrl, true⟩) := by
  cases tags with
  | none => simp [checkForSensitive]
  | some l =>
    refine ⟨?_, ?_⟩
    · simp [checkForSensitive, List.any_eq_true]
    · by_cases hc : l.any (fun tag => jsToLower tag == "sensitive") <;>
        simp [checkForSensitive, hc]

/-- Witness for C10 at concrete tag lists. -/
theorem c10_witness :
    checkForSensitive (some ["Sensitive", "travel"]) ≠ none ∧
      (checkForSensitive (some ["travel"]) = none ∨
        checkForSensitive (some ["travel"]) =
          some ⟨1000, sensitiveGuidelinesUrl, true⟩) :=
  ⟨(c10_check_for_sensitive (some ["Sensitive", "travel"])).1.mpr
      ⟨["Sensitive", "travel"], rfl, "Sensitive", by simp, by decide⟩,
    (c10_check_for_sensitive (some ["travel"])).2⟩

/-! ## Theorems for the backend claims -/

/-- C2: every result of a plain (no-search-term) listing carries a null
similarity and therefore renders no match percentage, and the note card's
badge condition holds exactly for a non-null similarity. -/
theorem c2_plain_listing_has_no_similarity (notes : List Note)
    (tasksOf : Note → List ClientTask) (offset limit : Nat) :
    (∀ r ∈ plainListing notes tasksOf offset limit,
        r.similarity = none ∧ showsSimilarity r.similarity = false) ∧
      ∀ s : Option ℚ, showsSimilarity s = true ↔ s ≠ none := by
  constructor
  · intro r hr
    simp only [plainListing, List.mem_map] at hr
    obtain ⟨n, -, rfl⟩ := hr
    exact ⟨rfl, rfl⟩
  · intro s
    cases s <;> simp [showsSimilarity]

/-- Witness for C2 on a concrete one-note listing. -/
theorem c2_witness :
    sampleListedNote.similarity = none ∧
      showsSimilarity sampleListedNote.similarity = false :=
  (c2_plain_listing_has_no_similarity [sampleNote] (fun _ => []) 0 10).1
    sampleListedNote (by decide)

/-- C4: the client's toggle sends the opposite status, toggling twice is the
identity on `{open, done}`, and both `UpdateTaskStatus` calls succeed, leaving
the task with its original status. -/
theorem c4_toggle_twice_round_trip (tasks : TaskMap) (taskId : Nat) (t : Task)
    (hfind : tasks taskId = some t)
    (hstatus : t.status = "open" ∨ t.status = "done") :
    (toggleStatus "open" = "done" ∧ toggleStatus "done" = "open") ∧
      (∀ s, s = "open" ∨ s = "done" → toggleStatus (toggleStatus s) = s) ∧
      ∃ tasks1 t1 tasks2 t2,
        updateTaskStatus tasks taskId (toggleStatus t.status) =
            Except.ok (tasks1, t1) ∧
          updateTaskStatus tasks1 taskId (toggleStatus t1.status) =
            Except.ok (tasks2, t2) ∧
          t1.status = toggleStatus t.status ∧ t2 = t ∧
          tasks2 taskId = some t := by
  have hmem : ∀ s, s = "open" ∨ s = "done" →
      toggleStatus s = "open" ∨ toggleStatus s = "done" := by
    rintro s (rfl | rfl)
    · right; decide
    · left; decide
  have htog : ∀ s, s = "open" ∨ s = "done" →
      toggleStatus (toggleStatus s) = s := by
    rintro s (rfl | rfl) <;> decide
  refine ⟨⟨by decide, by decide⟩, htog, ?_⟩
  obtain ⟨tid, tnid, ttext, tstat⟩ := t
  have hst1 := hmem tstat hstatus
  have h1 := updateTaskStatus_found tasks taskId (toggleStatus tstat)
    ⟨tid, tnid, ttext, tstat⟩ hst1 hfind
  have h2 := updateTaskStatus_found
    (fun i => if i = taskId then some ⟨tid, tnid, ttext, toggleStatus tstat⟩
      else tasks i)
    taskId (toggleStatus (toggleStatus tstat))
    ⟨tid, tnid, ttext, toggleStatus tstat⟩ (hmem _ hst1) (by simp)
  refine ⟨fun i => if i = taskId then
      some ⟨tid, tnid, ttext, toggleStatus tstat⟩ else tasks i,
    ⟨tid, tnid, ttext, toggleStatus tstat⟩,
    fun i => if i = taskId then
      some ⟨tid, tnid, ttext, toggleStatus (toggleStatus tstat)⟩ else
      (if i = taskId then some ⟨tid, tnid, ttext, toggleStatus tstat⟩
        else tasks i),
    ⟨tid, tnid, ttext, toggleStatus (toggleStatus tstat)⟩,
    h1, h2, rfl, ?_, ?_⟩
  · rw [htog tstat hstatus]
  · simp [htog tstat hstatus]

/-- Witness for C4 on a concrete one-task table. -/
theorem c4_witness :
    ∃ tasks1 t1 tasks2 t2,
      updateTaskStatus sampleTaskMap 1 (toggleStatus sampleTask.status) =
          Except.ok (tasks1, t1) ∧
        updateTaskStatus tasks1 1 (toggleStatus t1.status) =
          Except.ok (tasks2, t2) ∧
        t1.status = toggleStatus sampleTask.status ∧ t2 = sampleTask ∧
        tasks2 1 = some sampleTask :=
  (c4_toggle_twice_round_trip sampleTaskMap 1 sampleTask
    (by simp [sampleTaskMap]) (Or.inl rfl)).2.2

/-- C6: note creation is all-or-nothing — on any stage failure the store is
unchanged and the failing stage's error kind propagates; on success exactly
one fully enriched Note (with its Tasks) is appended, so a partially enriched
note is never observable. -/
theorem c6_create_note_all_or_nothing (store : Store) (newId firstTaskId : Nat)
    (now : Int) (title body : String) (enrichResult : Except Unit Enrichment)
    (embedResult : Except Unit (List ℚ)) (persistOk : Bool) :
    (∀ e, (createNote store newId firstTaskId now title body enrichResult
          embedResult persistOk).1 = Except.error e →
        (createNote store newId firstTaskId now title body enrichResult
          embedResult persistOk).2 = store) ∧
      (∀ n, (createNote store newId firstTaskId now title body enrichResult
            embedResult persistOk).1 = Except.ok n →
        persistOk = true ∧
          ∃ enr vec, enrichResult = Except.ok enr ∧
            embedResult = Except.ok vec ∧
            normalize title body = Except.ok (n.title, n.body) ∧
            n.summary = enr.summary ∧ n.tags = enr.tags ∧ n.embedding = vec ∧
            (createNote store newId firstTaskId now title body enrichResult
              embedResult persistOk).2 =
              ⟨store.notes ++ [n],
                store.tasks ++ mkTasks firstTaskId newId enr.tasks⟩) ∧
      (∀ e, normalize title body = Except.error e →
        (createNote store newId firstTaskId now title body enrichResult
          embedResult persistOk).1 = Except.error e) ∧
      (∀ u p, normalize title body = Except.ok p →
        enrichResult = Except.error u →
        (createNote store newId firstTaskId now title body enrichResult
          embedResult persistOk).1 = Except.error CreateError.enrichment) ∧
      (∀ u enr p, normalize title body = Except.ok p →
        enrichResult = Except.ok enr → embedResult = Except.error u →
        (createNote store newId firstTaskId now title body enrichResult
          embedResult persistOk).1 = Except.error CreateError.embedding) ∧
      (∀ enr vec p, normalize title body = Except.ok p →
        enrichResult = Except.ok enr → embedResult = Except.ok vec →
        persistOk = false →
        (createNote store newId firstTaskId now title body enrichResult
          embedResult persistOk).1 = Except.error CreateError.storage) := by
  rcases hn : normalize title body with e | ⟨t, b⟩ <;>
    rcases enrichResult with u | enr <;>
      rcases embedResult with v | vec <;>
        cases persistOk <;>
          simp [createNote, hn]

/-- Witness for C6: a storage failure leaves the store unchanged. -/
theorem c6_witness :
    (createNote ⟨[], []⟩ 1 1 0 "t" "b" (Except.ok ⟨"s", ["x", "y", "z"],
        ["a", "b", "c"]⟩) (Except.ok [1]) false).2 = ⟨[], []⟩ :=
  (c6_create_note_all_or_nothing ⟨[], []⟩ 1 1 0 "t" "b"
    (Except.ok ⟨"s", ["x", "y", "z"], ["a", "b", "c"]⟩) (Except.ok [1])
    false).1 CreateError.storage (by rfl)

/-- C7 (amended): the stored body never exceeds 8000 characters, and whenever
the body's *trimmed* length exceeds 8000 the stored length is exactly 8000. -/
theorem c7_body_truncated_to_8000 (title body nTitle nBody : String)
    (h : normalize title body = Except.ok (nTitle, nBody)) :
    nBody.data.length ≤ 8000 ∧
      (8000 < (jsTrim body).data.length → nBody.data.length = 8000) := by
  by_cases h1 : jsTrim title = ""
  · simp [normalize, h1] at h
  · by_cases h2 : jsTrim body = ""
    · simp [normalize, h1, h2] at h
    · simp only [normalize, if_neg h1, if_neg h2, Except.ok.injEq,
        Prod.mk.injEq] at h
      obtain ⟨-, hb⟩ := h
      have hlen : nBody.data.length = min 8000 (jsTrim body).data.length := by
        rw [← hb]
        simp [truncateBody, maxBodyChars, List.length_take]
      refine ⟨?_, fun hl => ?_⟩ <;> omega

/-- Witness for C7 on a concrete 8001-letter body. -/
theorem c7_witness :
    (String.mk (List.replicate 8000 'a')).data.length = 8000 := by
  have hwa : isJsWhitespace 'a' = false := by decide
  have htrimc : trimChars longBody.data = List.replicate 8001 'a' := by
    show trimChars (List.replicate 8001 'a') = _
    unfold trimChars
    rw [dropWhile_replicate_of_neg _ _ hwa, List.reverse_replicate,
      dropWhile_replicate_of_neg _ _ hwa, List.reverse_replicate]
  have htrim : jsTrim longBody = String.mk (List.replicate 8001 'a') := by
    unfold jsTrim
    rw [htrimc]
  have hne : ¬(String.mk (List.replicate 8001 'a') = "") := by decide
  have htrunc : truncateBody (String.mk (List.replicate 8001 'a')) =
      String.mk (List.replicate 8000 'a') := by
    unfold truncateBody maxBodyChars
    rw [show (String.mk (List.replicate 8001 'a')).data =
      List.replicate 8001 'a' from rfl]
    rw [List.take_replicate, min_eq_left (by norm_num : (8000 : ℕ) ≤ 8001)]
  have hnorm : normalize "t" longBody =
      Except.ok ("t", String.mk (List.replicate 8000 'a')) := by
    unfold normalize
    rw [show jsTrim "t" = "t" from by decide, htrim]
    rw [if_neg (by decide : ¬("t" : String) = ""), if_neg hne, htrunc]
  have hlong : 8000 < (jsTrim longBody).data.length := by
    rw [htrim]
    show (8000 : ℕ) < (List.replicate 8001 'a').length
    rw [List.length_replicate]
    norm_num
  exact (c7_body_truncated_to_8000 "t" longBody "t"
    (String.mk (List.replicate 8000 'a')) hnorm).2 hlong

/-- C7, the claim as frozen is false: a body of 8002 characters (8001 spaces
then a letter) is stored with length 1, not 8000, because truncation applies
after trimming. -/
theorem c7_counterexample :
    8000 < padBody.data.length ∧
      normalize "t" padBody = Except.ok ("t", "a") ∧
      ("a" : String).data.length = 1 := by
  have hws : isJsWhitespace ' ' = true := by decide
  have hwa : isJsWhitespace 'a' = false := by decide
  have hdata : padBody.data = List.replicate 8001 ' ' ++ ['a'] := rfl
  have htrimc : trimChars padBody.data = ['a'] := by
    rw [hdata]
    unfold trimChars
    rw [dropWhile_replicate_append _ _ hws]
    simp [List.dropWhile_cons, hwa]
  have htrim : jsTrim padBody = "a" := by
    unfold jsTrim
    rw [htrimc]
  refine ⟨?_, ?_, by decide⟩
  · rw [hdata]
    simp only [List.length_append, List.length_replicate, List.length_cons,
      List.length_nil]
    omega
  · unfold normalize
    rw [show jsTrim "t" = "t" from by decide, htrim]
    rw [if_neg (by decide : ¬("t" : String) = ""),
      if_neg (by decide : ¬("a" : String) = "")]
    rw [show truncateBody "a" = "a" from by decide]

/-- C8: the search result page is sorted descending by similarity, with ties
broken by creation time descending, then by identifier — every adjacent pair
satisfies the claim's ordering property. -/
theorem c8_search_results_sorted (candidates : List ScoredNote)
    (offset limit : Nat) :
    List.Chain' (fun a b : ScoredNote =>
        b.sim ≤ a.sim ∧ (a.sim = b.sim → b.createdAt ≤ a.createdAt ∧
          (a.createdAt = b.createdAt → a.id ≤ b.id)))
      (searchResults candidates offset limit) := by
  have hs : List.Sorted (keyLE rankKey) (rankNotes candidates) :=
    sorted_sortByKey rankKey candidates
  have hsub : List.Sublist (searchResults candidates offset limit)
      (rankNotes candidates) := by
    unfold searchResults paginate
    exact (List.take_sublist _ _).trans (List.drop_sublist _ _)
  have hp : List.Sorted (keyLE rankKey) (searchResults candidates offset limit) :=
    List.Pairwise.sublist hsub hs
  exact List.Chain'.imp (fun a b h => keyLE_rankKey_elim h) hp.chain'

end QuickNote
